import Mathlib

/-!
# httpd.c: the request handler of a small HTTP/1.0 file server

A shallow embedding of `send_request` and `handle_request` from `src/httpd.c`.

* C strings are lists of characters (the bytes before the terminating NUL).
* The connection `nfd` is the list of bytes written to it so far; `fdopen`,
  `malloc` and the writes succeed.
* The file system, the bytes that follow each string literal in memory, and the
  behaviour of a forked child are parameters (`Env`). A path is absent, a
  directory or a file; the file system does not change during a request.
* `write(nfd, body, body_size)` sends `body_size` bytes starting at `body`, also
  when the object at `body` is shorter: the bytes after it come from `Env`.
* `handle_request` returns `none` when `sscanf` would store a token of
  `MAX_LINE` or more characters into one of the `MAX_LINE`-byte stack arrays:
  the C program has no defined behaviour from that point on.
-/

namespace Httpd

/-! ## Strings and libc helpers -/

/-- The source's text constant `#define MAX_LINE 1024`. -/
def MAX_LINE : Nat := 1024

/-- The NUL byte that terminates a C string. -/
def NUL : Char := Char.ofNat 0

/-- The C locale's `isspace`: space, `\t`, `\n`, `\v`, `\f`, `\r`. -/
def isspace (c : Char) : Bool :=
  c == ' ' || c == '\t' || c == '\n' || c == '\x0b' || c == '\x0c' || c == '\r'

/-- The C string stored in a byte buffer: the bytes before the first NUL. -/
def cstr (buf : List Char) : List Char :=
  buf.takeWhile (fun c => c != NUL)

/-- Whether `needle` is an initial segment of `hay`. -/
def starts_with : List Char → List Char → Bool
  | [], _ => true
  | _ :: _, [] => false
  | a :: as, b :: bs => a == b && starts_with as bs

/-- The test `strstr(hay, needle) != NULL`. -/
def strstr : List Char → List Char → Bool
  | [], needle => needle.isEmpty
  | c :: cs, needle => starts_with needle (c :: cs) || strstr cs needle

/-- The test `strcmp(a, b) == 0`. -/
def strcmp_eq (a b : List Char) : Bool :=
  a == b

/-- The test `strncmp(a, b, n) == 0`: the first `n` characters agree. -/
def strncmp_eq (a b : List Char) (n : Nat) : Bool :=
  a.take n == b.take n

/-- The call `getline(&line, &size, network)`: nothing (`-1`) at end of input,
otherwise the bytes up to and including the first newline. -/
def getline : List Char → Option (List Char)
  | [] => none
  | c :: cs =>
    if c = '\n' then some [c]
    else
      match getline cs with
      | none => some [c]
      | some l => some (c :: l)

/-- One `%s` conversion of `sscanf`: skip white space, then take the maximal run
of non-white-space characters. `none` is an input failure (end of string). -/
def scan_s (s : List Char) : Option (List Char × List Char) :=
  let s1 := s.dropWhile isspace
  if s1.isEmpty then none
  else some (s1.takeWhile (fun c => !isspace c), s1.dropWhile (fun c => !isspace c))

/-- What `sscanf(line, "%s %s %s", method, filename, version)` leaves behind: its
return value and the three arrays (an array that was not assigned is shown
empty; the caller never reads it). -/
structure Scan where
  ret : Int
  method : List Char
  filename : List Char
  version : List Char
deriving DecidableEq, Repr

/-- The call `sscanf(line, "%s %s %s", method, filename, version)`. The result
is `none` when a token does not fit its `MAX_LINE`-byte array together with the
terminating NUL. The blanks of the format skip white space, which `%s` does
anyway. -/
def sscanf3 (line : List Char) : Option Scan :=
  match scan_s line with
  | none => some ⟨-1, [], [], []⟩
  | some (method, r1) =>
    if MAX_LINE ≤ method.length then none
    else
      match scan_s (r1.dropWhile isspace) with
      | none => some ⟨1, method, [], []⟩
      | some (filename, r2) =>
        if MAX_LINE ≤ filename.length then none
        else
          match scan_s (r2.dropWhile isspace) with
          | none => some ⟨2, method, filename, []⟩
          | some (version, _) =>
            if MAX_LINE ≤ version.length then none
            else some ⟨3, method, filename, version⟩

/-! ## Formatted output -/

/-- An argument of `dprintf`. -/
inductive Arg where
  | int (v : Int)
  | str (s : List Char)
  | size (n : Nat)

/-- The conversion `%d`: the decimal digits, after a minus sign when negative. -/
def fmt_d (v : Int) : List Char :=
  (Int.repr v).toList

/-- The conversion `%zu`: the decimal digits. -/
def fmt_zu (n : Nat) : List Char :=
  (Nat.repr n).toList

/-- The text `printf` produces for a format and its arguments, for the
conversions the source uses (`%d`, `%s`, `%zu`). -/
def format : List Char → List Arg → List Char
  | [], _ => []
  | '%' :: 'd' :: rest, Arg.int v :: args => fmt_d v ++ format rest args
  | '%' :: 's' :: rest, Arg.str s :: args => s ++ format rest args
  | '%' :: 'z' :: 'u' :: rest, Arg.size n :: args => fmt_zu n ++ format rest args
  | c :: rest, args => c :: format rest args

/-- The call `dprintf(nfd, fmt, args...)`. -/
def dprintf (nfd : List Char) (fmt : String) (args : List Arg) : List Char :=
  nfd ++ format fmt.toList args

/-- A pointer to readable memory: the bytes of the object it points to and the
bytes that happen to follow the object. -/
structure Buf where
  obj : List Char
  past : Nat → Char

/-- The `n` bytes of memory starting at the pointer. -/
def Buf.read (b : Buf) (n : Nat) : List Char :=
  (b.obj ++ (List.range (n - b.obj.length)).map b.past).take n

/-- The call `write(nfd, body, body_size)`. -/
def write (nfd : List Char) (body : Buf) (body_size : Nat) : List Char :=
  nfd ++ body.read body_size

/-- The function `send_request` of `httpd.c`. -/
def send_request (nfd : List Char) (status_code : Int) (status_message : List Char)
    (content_type : List Char) (body : Option Buf) (body_size : Nat) : List Char :=
  let nfd := dprintf nfd "HTTP/1.0 %d %s\r\n" [Arg.int status_code, Arg.str status_message]
  let nfd := dprintf nfd "Content-Type: %s\r\n" [Arg.str content_type]
  let nfd := dprintf nfd "Content-Length: %zu\r\n" [Arg.size body_size]
  let nfd := dprintf nfd "\r\n" []
  match body with
  | some b => if body_size > 0 then write nfd b body_size else nfd
  | none => nfd

/-! ## The environment of a request -/

/-- What `stat` and `fopen(_, "r")` find at a path: nothing (`stat` returns
`-1`), a directory, or a file with its bytes and whether it can be opened for
reading. The file system does not change while a request is handled. -/
inductive FsEntry where
  | absent
  | dir
  | file (readable : Bool) (content : List Char)
deriving DecidableEq

/-- How the CGI-like branch's `fork` turns out: it fails, or the child runs, and
then whether the child could create its temporary file, and what the parent
finds when it opens `/tmp/output_<pid>.txt` after `wait`. -/
inductive Child where
  | fork_failed
  | ran (temp_created : Bool) (temp : Option (List Char))

/-- The environment `handle_request` runs in. -/
structure Env where
  /-- the file system, by path as given to `stat` and `fopen` -/
  fs : List Char → FsEntry
  /-- the bytes that follow a string literal (and its NUL) in memory -/
  rodata : List Char → Nat → Char
  /-- the outcome of forking a child for a command -/
  cgi : List Char → Child

/-- A system call the handler makes besides writing to the connection. -/
inductive Event where
  | stat (path : List Char)
  | fopen (path : List Char)
  | fread (path : List Char)
  | fork (command : List Char)
deriving DecidableEq, Repr

/-- One run of `handle_request`: the bytes written to the connection and the
system calls made, in order. -/
structure Run where
  nfd : List Char
  trace : List Event
deriving DecidableEq, Repr

/-- A string literal passed as `body`: its characters and NUL, followed by
whatever the linker placed after it. -/
def literal (env : Env) (s : String) : Option Buf :=
  some ⟨s.toList ++ [NUL], env.rodata s.toList⟩

/-- A buffer from `malloc` holding `content`. -/
def heap (content : List Char) : Buf :=
  ⟨content, fun _ => NUL⟩

/-- The bodies of the error responses, as written in the source. -/
def html400 : String := "<html><body><h1>400 Bad Request</h1></body></html>"

/-- The body of the 403 responses. -/
def html403 : String := "<html><body><h1>403 Forbidden</h1></body></html>"

/-- The body of the 404 response. -/
def html404 : String := "<html><body><h1>404 Not Found</h1></body></html>"

/-- The body of the 500 responses. -/
def html500 : String := "<html><body><h1>500 Internal Error</h1></body></html>"

/-- The body of the 501 response. -/
def html501 : String := "<html><body><h1>501 Not Implemented</h1></body></html>"

/-- The lines 65 to 67: `if (filename[0] == '/') memmove(filename, filename + 1, strlen(filename))`. -/
def strip_slash (filename : List Char) : List Char :=
  match filename with
  | c :: rest => if c = '/' then rest else c :: rest
  | [] => []

/-- The static-file branch of `handle_request` (lines 78 to 110). -/
def serve_file (env : Env) (method filename : List Char) : Run :=
  match env.fs filename with
  | FsEntry.absent =>
    ⟨send_request [] 404 "Not Found".toList "text/html".toList (literal env html404) 46,
      [Event.stat filename]⟩
  | FsEntry.dir =>
    ⟨send_request [] 403 "Forbidden".toList "text/html".toList (literal env html403) 51,
      [Event.stat filename]⟩
  | FsEntry.file readable content =>
    if !readable then
      ⟨send_request [] 500 "Internal Error".toList "text/html".toList (literal env html500) 49,
        [Event.stat filename, Event.fopen filename]⟩
    else if strcmp_eq method "GET".toList then
      ⟨send_request [] 200 "OK".toList "text/html".toList (some (heap content)) content.length,
        [Event.stat filename, Event.fopen filename, Event.fread filename]⟩
    else
      ⟨send_request [] 200 "OK".toList "text/html".toList none 0,
        [Event.stat filename, Event.fopen filename]⟩

/-- The CGI-like branch of `handle_request` (lines 112 to 163). The child writes
its own 500 response when it cannot create the temporary file; the parent
answers from what it finds in the temporary file after `wait`. The cut of
`filename` at `?` (lines 115 to 119) comes after `command` is built, and
`filename` is not read again. -/
def serve_cgi (env : Env) (filename : List Char) : Run :=
  let command := ('.' :: filename).take (MAX_LINE - 1)
  if !strncmp_eq command "./cgi-like/".toList 11 then
    ⟨send_request [] 403 "Forbidden".toList "text/html".toList (literal env html403) 51, []⟩
  else
    match env.cgi command with
    | Child.fork_failed =>
      ⟨send_request [] 500 "Internal Error".toList "text/html".toList (literal env html500) 49,
        [Event.fork command]⟩
    | Child.ran temp_created temp =>
      let nfd :=
        if temp_created then []
        else send_request [] 500 "Internal Error".toList "text/html".toList (literal env html500) 49
      match temp with
      | none =>
        ⟨send_request nfd 500 "Internal Error".toList "text/html".toList (literal env html500) 49,
          [Event.fork command]⟩
      | some content =>
        ⟨send_request nfd 200 "OK".toList "text/html".toList (some (heap content)) content.length,
          [Event.fork command]⟩

/-- The function `handle_request` of `httpd.c`, on the bytes `input` that arrive
on the connection. `none`: a token overran its array. -/
def handle_request (env : Env) (input : List Char) : Option Run :=
  match getline input with
  | none => some ⟨[], []⟩
  | some line =>
    match sscanf3 (cstr line) with
    | none => none
    | some sc =>
      if sc.ret ≠ 3 then
        some ⟨send_request [] 400 "Bad Request".toList "text/html".toList (literal env html400) 50, []⟩
      else
        let filename := strip_slash sc.filename
        if strstr filename "..".toList then
          some ⟨send_request [] 403 "Forbidden".toList "text/html".toList (literal env html403) 51, []⟩
        else if strcmp_eq sc.method "GET".toList || strcmp_eq sc.method "HEAD".toList then
          some (serve_file env sc.method filename)
        else if strncmp_eq sc.method "GET /cgi-like".toList 13 then
          some (serve_cgi env filename)
        else
          some ⟨send_request [] 501 "Not Implemented".toList "text/html".toList (literal env html501) 47, []⟩

/-! ## Notions used to state the properties -/

/-- The white-space-delimited tokens of a string: split at every white-space
character and keep the pieces that are not empty. -/
def tokens (s : List Char) : List (List Char) :=
  (s.splitOnP isspace).filter (fun t => !t.isEmpty)

/-- A token of a request line: not empty, without white space and without NUL. -/
def is_token (t : List Char) : Prop :=
  t ≠ [] ∧ ∀ c ∈ t, isspace c = false ∧ c ≠ NUL

/-- A sample environment: `index.html` holds ten bytes, `subdir/` is a
directory, `secret.txt` cannot be opened, `/etc/passwd` is a file outside the
served tree, and nothing else exists. -/
def demo_env : Env where
  fs := fun path =>
    if path = "index.html".toList then FsEntry.file true "hello%%%%\n".toList
    else if path = "subdir/".toList then FsEntry.dir
    else if path = "secret.txt".toList then FsEntry.file false "s3cret".toList
    else if path = "/etc/passwd".toList then FsEntry.file true "root:x:0:0:root:/root:/bin/sh\n".toList
    else FsEntry.absent
  rodata := fun _ _ => 'X'
  cgi := fun _ => Child.fork_failed

/-! ## Scanning a line and its tokens -/

/-- A leading white-space character adds no token. -/
theorem tokens_cons_space (c : Char) (s : List Char) (h : isspace c = true) :
    tokens (c :: s) = tokens s := by
  simp [tokens, List.splitOnP_cons, h]

/-- Leading white space adds no token. -/
theorem tokens_dropWhile_space (s : List Char) :
    tokens (s.dropWhile isspace) = tokens s := by
  induction s with
  | nil => rfl
  | cons c s ih =>
    by_cases h : isspace c = true
    · rw [List.dropWhile_cons_of_pos h, ih, tokens_cons_space c s h]
    · rw [List.dropWhile_cons_of_neg h]

/-- A non-empty string without white space is its own single token. -/
theorem tokens_single (t : List Char) (hne : t ≠ []) (h : ∀ c ∈ t, isspace c = false) :
    tokens t = [t] := by
  have : t.splitOnP isspace = [t] := List.splitOnP_eq_single isspace t (by simpa using h)
  simp [tokens, this, hne]

/-- A non-empty string without white space, followed by a white-space
character, is the first token. -/
theorem tokens_first (t : List Char) (hne : t ≠ []) (h : ∀ c ∈ t, isspace c = false)
    (sep : Char) (hsep : isspace sep = true) (r : List Char) :
    tokens (t ++ sep :: r) = t :: tokens r := by
  have : (t ++ sep :: r).splitOnP isspace = t :: r.splitOnP isspace :=
    List.splitOnP_first isspace t (by simpa using h) sep hsep r
  simp [tokens, this, hne]

/-- A `%s` conversion fails exactly when no token is left. -/
theorem scan_s_none (s : List Char) (h : scan_s s = none) : tokens s = [] := by
  unfold scan_s at h
  simp only at h
  split at h
  · rename_i h1
    rw [← tokens_dropWhile_space, List.isEmpty_iff.mp h1]; rfl
  · simp at h

/-- What is left after a run of non-white-space characters is empty or starts
with a white-space character. -/
theorem span_nonspace (s : List Char) :
    s.dropWhile (fun c => !isspace c) = [] ∨
      ∃ sep r, isspace sep = true ∧ s.dropWhile (fun c => !isspace c) = sep :: r := by
  induction s with
  | nil => left; rfl
  | cons c s ih =>
    by_cases h : isspace c = true
    · right; exact ⟨c, s, h, by simp [List.dropWhile_cons, h]⟩
    · simpa [List.dropWhile_cons, h] using ih

/-- A `%s` conversion reads the first token and leaves the tokens after it. -/
theorem scan_s_some (s t r : List Char) (h : scan_s s = some (t, r)) :
    tokens s = t :: tokens r ∧ t ≠ [] ∧ ∀ c ∈ t, isspace c = false := by
  unfold scan_s at h
  simp only at h
  split at h
  · simp at h
  · rename_i h1
    simp only [Option.some.injEq, Prod.mk.injEq] at h
    obtain ⟨ht, hr⟩ := h
    set s1 := s.dropWhile isspace with hs1
    have hne1 : s1 ≠ [] := by simpa [List.isEmpty_iff] using h1
    have hall : ∀ c ∈ t, isspace c = false := by
      intro c hc
      rw [← ht] at hc
      simpa using List.mem_takeWhile_imp hc
    have hhead : t ≠ [] := by
      cases hs : s1 with
      | nil => exact absurd hs hne1
      | cons a l =>
        have ha : isspace a = false := by
          have := List.head_dropWhile_not isspace s (by rw [← hs1, hs]; simp)
          simpa [← hs1, hs] using this
        rw [← ht, hs]
        simp [List.takeWhile_cons, ha]
    refine ⟨?_, hhead, hall⟩
    rw [← tokens_dropWhile_space s, ← hs1]
    have hsplit : s1 = t ++ r := by rw [← ht, ← hr]; exact (List.takeWhile_append_dropWhile _ _).symm
    rcases span_nonspace s1 with h0 | ⟨sep, r', hsep, hr'⟩
    · rw [hr] at h0
      rw [hsplit, h0, List.append_nil, tokens_single t hhead hall]
      simp [tokens]
    · rw [hr] at hr'
      rw [hsplit, hr', tokens_first t hhead hall sep hsep r']
      rw [tokens_cons_space sep r' hsep]

/-- The scan in terms of the tokens of the line: the return value counts the
tokens up to three, and the arrays hold the first three tokens. -/
theorem sscanf3_tokens (s : List Char) :
    sscanf3 s =
      match tokens s with
      | [] => some ⟨-1, [], [], []⟩
      | [m] => if MAX_LINE ≤ m.length then none else some ⟨1, m, [], []⟩
      | [m, f] =>
        if MAX_LINE ≤ m.length then none
        else if MAX_LINE ≤ f.length then none else some ⟨2, m, f, []⟩
      | m :: f :: v :: _ =>
        if MAX_LINE ≤ m.length then none
        else if MAX_LINE ≤ f.length then none
        else if MAX_LINE ≤ v.length then none else some ⟨3, m, f, v⟩ := by
  unfold sscanf3
  cases h1 : scan_s s with
  | none => simp [scan_s_none s h1]
  | some p1 =>
    obtain ⟨m, r1⟩ := p1
    have e1 := (scan_s_some s m r1 h1).1
    cases h2 : scan_s (r1.dropWhile isspace) with
    | none =>
      have e2 := scan_s_none _ h2
      rw [tokens_dropWhile_space] at e2
      simp [e1, e2, h2]
    | some p2 =>
      obtain ⟨f, r2⟩ := p2
      have e2 := (scan_s_some _ f r2 h2).1
      rw [tokens_dropWhile_space] at e2
      cases h3 : scan_s (r2.dropWhile isspace) with
      | none =>
        have e3 := scan_s_none _ h3
        rw [tokens_dropWhile_space] at e3
        simp [e1, e2, e3, h2, h3]
      | some p3 =>
        obtain ⟨v, r3⟩ := p3
        have e3 := (scan_s_some _ v r3 h3).1
        rw [tokens_dropWhile_space] at e3
        simp [e1, e2, e3, h2, h3]

/-! ## The bytes of a response -/

/-- The bytes `send_request` appends to the connection. -/
theorem send_request_eq (nfd : List Char) (code : Int) (msg ty : List Char)
    (body : Option Buf) (n : Nat) :
    send_request nfd code msg ty body n =
      nfd ++ "HTTP/1.0 ".toList ++ (Int.repr code).toList ++ " ".toList ++ msg ++ "\r\n".toList
        ++ "Content-Type: ".toList ++ ty ++ "\r\n".toList
        ++ "Content-Length: ".toList ++ (Nat.repr n).toList ++ "\r\n".toList
        ++ "\r\n".toList
        ++ (match body with
            | some b => if 0 < n then b.read n else []
            | none => []) := by
  cases body with
  | none => simp [send_request, dprintf, format, fmt_d, fmt_zu, String.toList]
  | some b =>
    by_cases h : 0 < n <;> simp [send_request, dprintf, format, fmt_d, fmt_zu, write, h, String.toList]

/-- The bytes of the 400 response. -/
theorem resp400_eq (env : Env) :
    send_request [] 400 "Bad Request".toList "text/html".toList (literal env html400) 50 =
      "HTTP/1.0 400 Bad Request\r\nContent-Type: text/html\r\nContent-Length: 50\r\n\r\n<html><body><h1>400 Bad Request</h1></body></html>".toList := by
  rfl

set_option maxRecDepth 4000 in
/-- The bytes of the 403 response: 51 bytes are sent for a page of 48, so the
NUL and two bytes that follow the literal are sent too. -/
theorem resp403_eq (env : Env) :
    send_request [] 403 "Forbidden".toList "text/html".toList (literal env html403) 51 =
      "HTTP/1.0 403 Forbidden\r\nContent-Type: text/html\r\nContent-Length: 51\r\n\r\n<html><body><h1>403 Forbidden</h1></body></html>".toList
        ++ [NUL, env.rodata html403.toList 0, env.rodata html403.toList 1] := by
  rfl

/-- The bytes of the 404 response: the page is cut after 46 bytes. -/
theorem resp404_eq (env : Env) :
    send_request [] 404 "Not Found".toList "text/html".toList (literal env html404) 46 =
      "HTTP/1.0 404 Not Found\r\nContent-Type: text/html\r\nContent-Length: 46\r\n\r\n<html><body><h1>404 Not Found</h1></body></htm".toList := by
  rfl

/-- The bytes of the 500 response: the page is cut after 49 bytes. -/
theorem resp500_eq (env : Env) :
    send_request [] 500 "Internal Error".toList "text/html".toList (literal env html500) 49 =
      "HTTP/1.0 500 Internal Error\r\nContent-Type: text/html\r\nContent-Length: 49\r\n\r\n<html><body><h1>500 Internal Error</h1></body></h".toList := by
  rfl

/-- The bytes of the 501 response: the page is cut after 47 bytes. -/
theorem resp501_eq (env : Env) :
    send_request [] 501 "Not Implemented".toList "text/html".toList (literal env html501) 47 =
      "HTTP/1.0 501 Not Implemented\r\nContent-Type: text/html\r\nContent-Length: 47\r\n\r\n<html><body><h1>501 Not Implemented</h1></body>".toList := by
  rfl

/-- Reading a heap buffer in full gives its content. -/
theorem buf_read_all (content : List Char) : (heap content).read content.length = content := by
  simp [Buf.read, heap]

/-- The bytes of the 200 response to `GET`. -/
theorem resp200_get_eq (content : List Char) :
    send_request [] 200 "OK".toList "text/html".toList (some (heap content)) content.length =
      "HTTP/1.0 200 OK\r\nContent-Type: text/html\r\nContent-Length: ".toList
        ++ (Nat.repr content.length).toList ++ "\r\n\r\n".toList ++ content := by
  rw [send_request_eq]
  cases content with
  | nil => rfl
  | cons c cs =>
    have h : 0 < (c :: cs).length := by simp
    have h200 : (Nat.repr 200).data = ['2', '0', '0'] := by decide
    simp only [h, if_true, buf_read_all]
    simp [String.toList, Int.repr, h200]

/-- The bytes of the 200 response to `HEAD`. -/
theorem resp200_head_eq :
    send_request [] 200 "OK".toList "text/html".toList none 0 =
      "HTTP/1.0 200 OK\r\nContent-Type: text/html\r\nContent-Length: 0\r\n\r\n".toList := by
  rfl

/-! ## The dispatch of a parsed line -/

/-- The function `starts_with` decides the initial-segment relation. -/
theorem starts_with_iff (n h : List Char) : starts_with n h = true ↔ n <+: h := by
  induction n generalizing h with
  | nil => simp [starts_with]
  | cons a as ih =>
    cases h with
    | nil => simp [starts_with]
    | cons b bs => simp [starts_with, ih, List.cons_prefix_cons]

/-- The function `strstr` decides the contiguous-sublist relation. -/
theorem strstr_iff (h n : List Char) : strstr h n = true ↔ n <:+: h := by
  induction h with
  | nil => simp [strstr, List.isEmpty_iff]
  | cons c cs ih =>
    simp only [strstr, Bool.or_eq_true, starts_with_iff, ih, List.infix_cons_iff]

/-- A line without an inner newline is read up to and including its newline. -/
theorem getline_line (l rest : List Char) (h : '\n' ∉ l) :
    getline (l ++ '\n' :: rest) = some (l ++ ['\n']) := by
  induction l with
  | nil => simp [getline]
  | cons c cs ih =>
    have hc : c ≠ '\n' := fun e => h (by simp [e])
    have hcs : '\n' ∉ cs := fun e => h (by simp [e])
    simp [getline, hc, ih hcs]

/-- A buffer without NUL is its own C string. -/
theorem cstr_of_no_nul (l : List Char) (h : ∀ c ∈ l, c ≠ NUL) : cstr l = l := by
  unfold cstr
  rw [List.takeWhile_eq_self_iff]
  intro c hc
  simpa using h c hc

/-- The first token holds no white space. -/
theorem tokens_head (s m : List Char) (rest : List (List Char)) (h : tokens s = m :: rest) :
    ∀ c ∈ m, isspace c = false := by
  cases h1 : scan_s s with
  | none => rw [scan_s_none s h1] at h; cases h
  | some p =>
    obtain ⟨t, r⟩ := p
    obtain ⟨e, _, hall⟩ := scan_s_some s t r h1
    rw [e] at h
    cases h
    exact hall

/-- A string without white space does not start with `GET /cgi-like`. -/
theorem no_cgi (m : List Char) (h : ∀ c ∈ m, isspace c = false) :
    strncmp_eq m "GET /cgi-like".toList 13 = false := by
  by_contra hc
  have hc' : m.take 13 = "GET /cgi-like".toList.take 13 := by
    simpa [strncmp_eq] using hc
  have hmem : ' ' ∈ m.take 13 := by rw [hc']; decide
  have := h ' ' (List.mem_of_mem_take hmem)
  exact absurd this (by decide)

/-- What `handle_request` does with a line of at least three tokens that fit
their arrays. -/
theorem handle_request_three (env : Env) (input line m f v : List Char)
    (more : List (List Char)) (hline : getline input = some line)
    (htok : tokens (cstr line) = m :: f :: v :: more)
    (hm : m.length < MAX_LINE) (hf : f.length < MAX_LINE) (hv : v.length < MAX_LINE) :
    handle_request env input =
      if strstr (strip_slash f) "..".toList then
        some ⟨send_request [] 403 "Forbidden".toList "text/html".toList (literal env html403) 51, []⟩
      else if strcmp_eq m "GET".toList || strcmp_eq m "HEAD".toList then
        some (serve_file env m (strip_slash f))
      else
        some ⟨send_request [] 501 "Not Implemented".toList "text/html".toList (literal env html501) 47, []⟩ := by
  have hcgi := no_cgi m (tokens_head _ m _ htok)
  unfold handle_request
  simp only [hline, sscanf3_tokens, htok, not_le.mpr hm, not_le.mpr hf, not_le.mpr hv, if_false]
  have hcgi2 : strncmp_eq m ['G', 'E', 'T', ' ', '/', 'c', 'g', 'i', '-', 'l', 'i', 'k', 'e'] 13 = false := hcgi
  simp [hcgi2]

/-- A token holds no white space. -/
theorem is_token_nospace (t : List Char) (h : is_token t) : ∀ c ∈ t, isspace c = false :=
  fun c hc => (h.2 c hc).1

/-- The line `<m> <p> <v>\r\n`, followed by anything, is read whole and has the
three tokens `m`, `p`, `v`. -/
theorem request_line_shape (m p v rest : List Char) (hm : is_token m) (hp : is_token p)
    (hv : is_token v) :
    getline (m ++ ' ' :: (p ++ ' ' :: (v ++ '\r' :: '\n' :: rest))) =
        some (m ++ ' ' :: (p ++ ' ' :: (v ++ ['\r', '\n']))) ∧
      tokens (cstr (m ++ ' ' :: (p ++ ' ' :: (v ++ ['\r', '\n'])))) = [m, p, v] := by
  have hnl : ∀ t : List Char, is_token t → '\n' ∉ t := by
    intro t ht hmem
    exact absurd (ht.2 _ hmem).1 (by decide)
  constructor
  · have e : m ++ ' ' :: (p ++ ' ' :: (v ++ '\r' :: '\n' :: rest)) =
        (m ++ ' ' :: (p ++ ' ' :: (v ++ ['\r']))) ++ '\n' :: rest := by simp
    have e2 : m ++ ' ' :: (p ++ ' ' :: (v ++ ['\r', '\n'])) =
        (m ++ ' ' :: (p ++ ' ' :: (v ++ ['\r']))) ++ ['\n'] := by simp
    rw [e, e2]
    apply getline_line
    intro hmem
    simp only [List.mem_append, List.mem_cons, List.mem_singleton, List.not_mem_nil,
      or_false] at hmem
    rcases hmem with h | h | h | h | h | h
    · exact hnl m hm h
    · exact absurd h (by decide)
    · exact hnl p hp h
    · exact absurd h (by decide)
    · exact hnl v hv h
    · exact absurd h (by decide)
  · rw [cstr_of_no_nul]
    · rw [tokens_first m hm.1 (is_token_nospace m hm) ' ' (by decide),
        tokens_first p hp.1 (is_token_nospace p hp) ' ' (by decide),
        tokens_first v hv.1 (is_token_nospace v hv) '\r' (by decide)]
      have : tokens ['\n'] = [] := by decide
      rw [this]
    · intro c hmem
      simp only [List.mem_append, List.mem_cons, List.mem_singleton, List.not_mem_nil,
        or_false] at hmem
      rcases hmem with h | h | h | h | h | h | h
      · exact (hm.2 c h).2
      · rw [h]; decide
      · exact (hp.2 c h).2
      · rw [h]; decide
      · exact (hv.2 c h).2
      · rw [h]; decide
      · rw [h]; decide

/-- The method `GET` is a token. -/
theorem is_token_GET : is_token "GET".toList := ⟨by decide, by decide⟩

/-- The method `HEAD` is a token. -/
theorem is_token_HEAD : is_token "HEAD".toList := ⟨by decide, by decide⟩

/-- The version `HTTP/1.0` is a token. -/
theorem is_token_version : is_token "HTTP/1.0".toList := ⟨by decide, by decide⟩

/-- The static-file branch forks nothing. -/
theorem serve_file_no_fork (env : Env) (m f command : List Char) :
    Event.fork command ∉ (serve_file env m f).trace := by
  unfold serve_file
  cases env.fs f with
  | absent => simp
  | dir => simp
  | file readable content =>
    cases readable
    · simp
    · simp only [Bool.not_true, Bool.false_eq_true, if_false]
      split <;> simp

/-- The status lines of the static-file branch. -/
theorem serve_file_status (env : Env) (m f : List Char) :
    "HTTP/1.0 200 OK\r\n".toList <+: (serve_file env m f).nfd ∨
      "HTTP/1.0 404 Not Found\r\n".toList <+: (serve_file env m f).nfd ∨
      "HTTP/1.0 403 Forbidden\r\n".toList <+: (serve_file env m f).nfd ∨
      "HTTP/1.0 500 Internal Error\r\n".toList <+: (serve_file env m f).nfd := by
  unfold serve_file
  cases env.fs f with
  | absent =>
    right; left
    simp only [send_request_eq, List.nil_append, List.append_assoc]
    exact ⟨_, rfl⟩
  | dir =>
    right; right; left
    simp only [send_request_eq, List.nil_append, List.append_assoc]
    exact ⟨_, rfl⟩
  | file readable content =>
    cases readable
    · right; right; right
      simp only [send_request_eq, List.nil_append, List.append_assoc]
      exact ⟨_, rfl⟩
    · left
      by_cases h : strcmp_eq m "GET".toList = true
      · simp only [h, send_request_eq, List.nil_append, List.append_assoc]
        exact ⟨_, rfl⟩
      · simp only [h, send_request_eq, List.nil_append, List.append_assoc]
        exact ⟨_, rfl⟩

/-- A scan that does not return 3 is answered with 400 and nothing else. -/
theorem handle_request_bad (env : Env) (input line : List Char) (sc : Scan)
    (hline : getline input = some line) (hscan : sscanf3 (cstr line) = some sc)
    (hret : sc.ret ≠ 3) :
    handle_request env input =
      some ⟨"HTTP/1.0 400 Bad Request\r\nContent-Type: text/html\r\nContent-Length: 50\r\n\r\n<html><body><h1>400 Bad Request</h1></body></html>".toList, []⟩ := by
  unfold handle_request
  simp only [hline, hscan]
  rw [if_pos hret, resp400_eq]

/-- A path in which `strstr` finds no `..` does not contain `..`. -/
theorem no_dots_of_strstr (f : List Char) (h : strstr f "..".toList = false) :
    ¬ "..".toList <:+: f := by
  intro hin
  rw [(strstr_iff _ _).mpr hin] at h
  cases h

/-! ## The properties of the specification -/

/-- C1 (amended): for every request line `HEAD <path> HTTP/1.0` whose path (a
token that fits the `filename` array), after one leading `/` is removed, has no
`..` and names a file that can be opened for reading, the handler sends status
200 OK with `Content-Length: 0` and no body, whatever the size of the file; the
file is opened and not read. -/
theorem head_sends_zero_length (env : Env) (path rest content : List Char)
    (hpath : is_token path) (hfit : path.length < MAX_LINE)
    (hdots : ¬ "..".toList <:+: strip_slash path)
    (hfile : env.fs (strip_slash path) = FsEntry.file true content) :
    handle_request env ("HEAD ".toList ++ path ++ " HTTP/1.0\r\n".toList ++ rest) =
      some ⟨"HTTP/1.0 200 OK\r\nContent-Type: text/html\r\nContent-Length: 0\r\n\r\n".toList,
        [Event.stat (strip_slash path), Event.fopen (strip_slash path)]⟩ := by
  have e : "HEAD ".toList ++ path ++ " HTTP/1.0\r\n".toList ++ rest =
      "HEAD".toList ++ ' ' :: (path ++ ' ' :: ("HTTP/1.0".toList ++ '\r' :: '\n' :: rest)) := by
    simp [String.toList]
  obtain ⟨hline, htok⟩ :=
    request_line_shape "HEAD".toList path "HTTP/1.0".toList rest is_token_HEAD hpath is_token_version
  rw [e, handle_request_three env _ _ _ _ _ [] hline htok (by decide) hfit (by decide),
    if_neg (fun h => hdots ((strstr_iff _ _).mp h)), if_pos (by decide), serve_file, hfile,
    ← resp200_head_eq]
  rfl

/-- C1 (witness): `HEAD /index.html HTTP/1.0` on the sample environment, where
`index.html` holds ten bytes. -/
theorem head_sends_zero_length_witness :
    demo_env.fs (strip_slash "/index.html".toList) = FsEntry.file true "hello%%%%\n".toList ∧
      handle_request demo_env
          ("HEAD ".toList ++ "/index.html".toList ++ " HTTP/1.0\r\n".toList ++ []) =
        some ⟨"HTTP/1.0 200 OK\r\nContent-Type: text/html\r\nContent-Length: 0\r\n\r\n".toList,
          [Event.stat (strip_slash "/index.html".toList),
            Event.fopen (strip_slash "/index.html".toList)]⟩ :=
  ⟨by decide,
    head_sends_zero_length demo_env "/index.html".toList [] "hello%%%%\n".toList
      ⟨by decide, by decide⟩ (by decide) (no_dots_of_strstr _ (by decide)) (by decide)⟩

/-- C1 (counterexample): `index.html` holds ten bytes, and the answer to
`HEAD /index.html HTTP/1.0` carries `Content-Length: 0`, not 10. -/
theorem head_content_length_not_file_size :
    demo_env.fs "index.html".toList = FsEntry.file true "hello%%%%\n".toList ∧
      "hello%%%%\n".toList.length = 10 ∧
      handle_request demo_env "HEAD /index.html HTTP/1.0\r\n".toList =
        some ⟨"HTTP/1.0 200 OK\r\nContent-Type: text/html\r\nContent-Length: 0\r\n\r\n".toList,
          [Event.stat "index.html".toList, Event.fopen "index.html".toList]⟩ ∧
      handle_request demo_env "HEAD /index.html HTTP/1.0\r\n".toList ≠
        some ⟨"HTTP/1.0 200 OK\r\nContent-Type: text/html\r\nContent-Length: 10\r\n\r\n".toList,
          [Event.stat "index.html".toList, Event.fopen "index.html".toList]⟩ := by
  refine ⟨by decide, by decide, by decide, by decide⟩

/-- C2: for every request line `GET <path> HTTP/1.0` whose path (a token that
fits the `filename` array), after one leading `/` is removed, has no `..` and
names a file that can be opened for reading, the handler sends exactly: status
200 OK, `Content-Length` equal to the number of bytes of the file, and the
bytes of the file as the body. -/
theorem get_serves_file (env : Env) (path rest content : List Char)
    (hpath : is_token path) (hfit : path.length < MAX_LINE)
    (hdots : ¬ "..".toList <:+: strip_slash path)
    (hfile : env.fs (strip_slash path) = FsEntry.file true content) :
    handle_request env ("GET ".toList ++ path ++ " HTTP/1.0\r\n".toList ++ rest) =
      some ⟨"HTTP/1.0 200 OK\r\nContent-Type: text/html\r\nContent-Length: ".toList
              ++ (Nat.repr content.length).toList ++ "\r\n\r\n".toList ++ content,
        [Event.stat (strip_slash path), Event.fopen (strip_slash path),
          Event.fread (strip_slash path)]⟩ := by
  have e : "GET ".toList ++ path ++ " HTTP/1.0\r\n".toList ++ rest =
      "GET".toList ++ ' ' :: (path ++ ' ' :: ("HTTP/1.0".toList ++ '\r' :: '\n' :: rest)) := by
    simp [String.toList]
  obtain ⟨hline, htok⟩ :=
    request_line_shape "GET".toList path "HTTP/1.0".toList rest is_token_GET hpath is_token_version
  rw [e, handle_request_three env _ _ _ _ _ [] hline htok (by decide) hfit (by decide),
    if_neg (fun h => hdots ((strstr_iff _ _).mp h)), if_pos (by decide), serve_file, hfile,
    ← resp200_get_eq]
  rfl

/-- C2 (witness): `GET /index.html HTTP/1.0` on the sample environment returns
the ten bytes of `index.html` with `Content-Length: 10`. -/
theorem get_serves_file_witness :
    demo_env.fs (strip_slash "/index.html".toList) = FsEntry.file true "hello%%%%\n".toList ∧
      handle_request demo_env "GET /index.html HTTP/1.0\r\n".toList =
        some ⟨"HTTP/1.0 200 OK\r\nContent-Type: text/html\r\nContent-Length: 10\r\n\r\nhello%%%%\n".toList,
          [Event.stat "index.html".toList, Event.fopen "index.html".toList,
            Event.fread "index.html".toList]⟩ :=
  ⟨by decide,
    get_serves_file demo_env "/index.html".toList [] "hello%%%%\n".toList
      ⟨by decide, by decide⟩ (by decide) (no_dots_of_strstr _ (by decide)) (by decide)⟩

/-- C3 (amended): a request line with fewer than three white-space-delimited
tokens (each fitting its array) is answered with 400 Bad Request and nothing
else is done; a line with three tokens or more is handled exactly like the line
made of its first three tokens, the further tokens being ignored. -/
theorem few_tokens_bad_request (env : Env) (input line : List Char)
    (hline : getline input = some line)
    (hfit : ∀ t ∈ tokens (cstr line), t.length < MAX_LINE) :
    ((tokens (cstr line)).length < 3 →
      handle_request env input =
        some ⟨"HTTP/1.0 400 Bad Request\r\nContent-Type: text/html\r\nContent-Length: 50\r\n\r\n<html><body><h1>400 Bad Request</h1></body></html>".toList, []⟩) ∧
    (∀ (m f v : List Char) (more : List (List Char)),
      tokens (cstr line) = m :: f :: v :: more →
      ∀ input2 line2, getline input2 = some line2 → tokens (cstr line2) = [m, f, v] →
        handle_request env input = handle_request env input2) := by
  constructor
  · intro hfew
    have hs := sscanf3_tokens (cstr line)
    cases htok : tokens (cstr line) with
    | nil =>
      rw [htok] at hs
      exact handle_request_bad env input line _ hline hs (by decide)
    | cons m l1 =>
      have hm : ¬ MAX_LINE ≤ m.length := not_le.mpr (hfit m (by simp [htok]))
      cases l1 with
      | nil =>
        rw [htok] at hs
        simp only [hm, if_false] at hs
        exact handle_request_bad env input line _ hline hs (by simp)
      | cons f l2 =>
        have hf : ¬ MAX_LINE ≤ f.length := not_le.mpr (hfit f (by simp [htok]))
        cases l2 with
        | nil =>
          rw [htok] at hs
          simp only [hm, hf, if_false] at hs
          exact handle_request_bad env input line _ hline hs (by simp)
        | cons v more =>
          rw [htok] at hfew
          simp only [List.length_cons] at hfew
          omega
  · intro m f v more htok input2 line2 hline2 htok2
    have hm : m.length < MAX_LINE := hfit m (by simp [htok])
    have hf : f.length < MAX_LINE := hfit f (by simp [htok])
    have hv : v.length < MAX_LINE := hfit v (by simp [htok])
    rw [handle_request_three env input line m f v more hline htok hm hf hv,
      handle_request_three env input2 line2 m f v [] hline2 htok2 hm hf hv]

/-- C3 (witness): `BADLINE` has one token and is answered with 400; and
`GET /index.html HTTP/1.0 extra` is handled like `GET /index.html HTTP/1.0`. -/
theorem few_tokens_bad_request_witness :
    handle_request demo_env "BADLINE\r\n".toList =
        some ⟨"HTTP/1.0 400 Bad Request\r\nContent-Type: text/html\r\nContent-Length: 50\r\n\r\n<html><body><h1>400 Bad Request</h1></body></html>".toList, []⟩ ∧
      handle_request demo_env "GET /index.html HTTP/1.0 extra\r\n".toList =
        handle_request demo_env "GET /index.html HTTP/1.0\r\n".toList :=
  ⟨(few_tokens_bad_request demo_env "BADLINE\r\n".toList "BADLINE\r\n".toList
      (by decide) (by decide)).1 (by decide),
    (few_tokens_bad_request demo_env "GET /index.html HTTP/1.0 extra\r\n".toList
      "GET /index.html HTTP/1.0 extra\r\n".toList (by decide) (by decide)).2
      "GET".toList "/index.html".toList "HTTP/1.0".toList ["extra".toList] (by decide)
      "GET /index.html HTTP/1.0\r\n".toList "GET /index.html HTTP/1.0\r\n".toList
      (by decide) (by decide)⟩

/-- C3 (counterexample): the line `GET /a HTTP/1.0 extra` has four tokens, yet
the handler does not answer 400: it looks up `a` and answers 404. -/
theorem extra_token_not_bad_request :
    (tokens (cstr "GET /a HTTP/1.0 extra\r\n".toList)).length = 4 ∧
      handle_request demo_env "GET /a HTTP/1.0 extra\r\n".toList =
        some ⟨"HTTP/1.0 404 Not Found\r\nContent-Type: text/html\r\nContent-Length: 46\r\n\r\n<html><body><h1>404 Not Found</h1></body></htm".toList,
          [Event.stat "a".toList]⟩ ∧
      handle_request demo_env "GET /a HTTP/1.0 extra\r\n".toList ≠
        some ⟨"HTTP/1.0 400 Bad Request\r\nContent-Type: text/html\r\nContent-Length: 50\r\n\r\n<html><body><h1>400 Bad Request</h1></body></html>".toList, []⟩ := by
  refine ⟨by decide, by decide, by decide⟩

/-- C4 (the code at the failing input): the 404 page has 48 bytes, and the
answer to `GET /missing.html HTTP/1.0` announces `Content-Length: 46` and stops
two bytes short of the page's end; the pages sent with 51, 49 and 47 have 48, 53
and 54 bytes. Only the 400 page is sent with its own length, 50. -/
theorem error_page_sizes_mismatch :
    html400.length = 50 ∧ html403.length = 48 ∧ html404.length = 48 ∧
      html500.length = 53 ∧ html501.length = 54 ∧
      handle_request demo_env "GET /missing.html HTTP/1.0\r\n".toList =
        some ⟨"HTTP/1.0 404 Not Found\r\nContent-Type: text/html\r\nContent-Length: 46\r\n\r\n".toList
                ++ html404.toList.take 46,
          [Event.stat "missing.html".toList]⟩ := by
  refine ⟨by decide, by decide, by decide, by decide, by decide, by decide⟩

/-- C5 (the code at the failing input): for `GET //etc/passwd HTTP/1.0` one
slash is removed, the path `/etc/passwd` has no `..`, so it passes the check,
still begins with `/`, and the file outside the served tree is sent. -/
theorem double_slash_reaches_absolute_path :
    strip_slash "//etc/passwd".toList = "/etc/passwd".toList ∧
      (strip_slash "//etc/passwd".toList).head? = some '/' ∧
      strstr "/etc/passwd".toList "..".toList = false ∧
      handle_request demo_env "GET //etc/passwd HTTP/1.0\r\n".toList =
        some ⟨"HTTP/1.0 200 OK\r\nContent-Type: text/html\r\nContent-Length: 30\r\n\r\nroot:x:0:0:root:/root:/bin/sh\n".toList,
          [Event.stat "/etc/passwd".toList, Event.fopen "/etc/passwd".toList,
            Event.fread "/etc/passwd".toList]⟩ := by
  refine ⟨by decide, by decide, by decide, by decide⟩

/-- C6: when the line has three tokens (or more) and the path token, after one
leading `/` is removed, contains `..`, the handler answers 403 Forbidden for
every method token, and makes no file-system call. -/
theorem traversal_forbidden (env : Env) (input line method path version : List Char)
    (more : List (List Char)) (hline : getline input = some line)
    (htok : tokens (cstr line) = method :: path :: version :: more)
    (hm : method.length < MAX_LINE) (hp : path.length < MAX_LINE)
    (hv : version.length < MAX_LINE)
    (hdots : "..".toList <:+: strip_slash path) :
    handle_request env input =
      some ⟨"HTTP/1.0 403 Forbidden\r\nContent-Type: text/html\r\nContent-Length: 51\r\n\r\n<html><body><h1>403 Forbidden</h1></body></html>".toList
              ++ [NUL, env.rodata html403.toList 0, env.rodata html403.toList 1], []⟩ := by
  rw [handle_request_three env input line method path version more hline htok hm hp hv,
    if_pos ((strstr_iff _ _).mpr hdots), resp403_eq]

/-- C6 (witness): `GET /../etc/passwd HTTP/1.0` is answered 403 without any
file-system call; so is the same path under the method `PUT`. -/
theorem traversal_forbidden_witness :
    "..".toList <:+: strip_slash "/../etc/passwd".toList ∧
      handle_request demo_env "GET /../etc/passwd HTTP/1.0\r\n".toList =
        some ⟨"HTTP/1.0 403 Forbidden\r\nContent-Type: text/html\r\nContent-Length: 51\r\n\r\n<html><body><h1>403 Forbidden</h1></body></html>".toList
                ++ [NUL, 'X', 'X'], []⟩ ∧
      handle_request demo_env "PUT /../etc/passwd HTTP/1.0\r\n".toList =
        some ⟨"HTTP/1.0 403 Forbidden\r\nContent-Type: text/html\r\nContent-Length: 51\r\n\r\n<html><body><h1>403 Forbidden</h1></body></html>".toList
                ++ [NUL, 'X', 'X'], []⟩ :=
  ⟨by decide,
    traversal_forbidden demo_env "GET /../etc/passwd HTTP/1.0\r\n".toList
      "GET /../etc/passwd HTTP/1.0\r\n".toList "GET".toList "/../etc/passwd".toList
      "HTTP/1.0".toList [] (by decide) (by decide) (by decide) (by decide) (by decide)
      (by decide),
    traversal_forbidden demo_env "PUT /../etc/passwd HTTP/1.0\r\n".toList
      "PUT /../etc/passwd HTTP/1.0\r\n".toList "PUT".toList "/../etc/passwd".toList
      "HTTP/1.0".toList [] (by decide) (by decide) (by decide) (by decide) (by decide)
      (by decide)⟩

/-- C7: for a `GET` or `HEAD` request whose path is free of `..`: when `stat`
fails the answer is 404, when the path is a directory it is 403, when the file
cannot be opened for reading it is 500; each answer is a fixed page, and the
file is never read. -/
theorem static_file_errors (env : Env) (input line method path version : List Char)
    (more : List (List Char)) (hline : getline input = some line)
    (htok : tokens (cstr line) = method :: path :: version :: more)
    (hp : path.length < MAX_LINE) (hv : version.length < MAX_LINE)
    (hmethod : method = "GET".toList ∨ method = "HEAD".toList)
    (hdots : ¬ "..".toList <:+: strip_slash path) :
    (env.fs (strip_slash path) = FsEntry.absent →
      handle_request env input =
        some ⟨"HTTP/1.0 404 Not Found\r\nContent-Type: text/html\r\nContent-Length: 46\r\n\r\n<html><body><h1>404 Not Found</h1></body></htm".toList,
          [Event.stat (strip_slash path)]⟩) ∧
    (env.fs (strip_slash path) = FsEntry.dir →
      handle_request env input =
        some ⟨"HTTP/1.0 403 Forbidden\r\nContent-Type: text/html\r\nContent-Length: 51\r\n\r\n<html><body><h1>403 Forbidden</h1></body></html>".toList
                ++ [NUL, env.rodata html403.toList 0, env.rodata html403.toList 1],
          [Event.stat (strip_slash path)]⟩) ∧
    (∀ content, env.fs (strip_slash path) = FsEntry.file false content →
      handle_request env input =
        some ⟨"HTTP/1.0 500 Internal Error\r\nContent-Type: text/html\r\nContent-Length: 49\r\n\r\n<html><body><h1>500 Internal Error</h1></body></h".toList,
          [Event.stat (strip_slash path), Event.fopen (strip_slash path)]⟩) := by
  have hm : method.length < MAX_LINE := by
    rcases hmethod with h | h <;> rw [h] <;> decide
  have hsm : (strcmp_eq method "GET".toList || strcmp_eq method "HEAD".toList) = true := by
    rcases hmethod with h | h <;> rw [h] <;> decide
  have key := handle_request_three env input line method path version more hline htok hm hp hv
  rw [if_neg (fun h => hdots ((strstr_iff _ _).mp h)), if_pos hsm] at key
  refine ⟨fun h => ?_, fun h => ?_, fun content h => ?_⟩
  · rw [key, serve_file, h, resp404_eq]
  · rw [key, serve_file, h, resp403_eq]
  · rw [key, serve_file, h, resp500_eq]; rfl

/-- C7 (witness): on the sample environment `GET /missing.html` is answered
404, `GET /subdir/` 403 and `HEAD /secret.txt` 500. -/
theorem static_file_errors_witness :
    handle_request demo_env "GET /missing.html HTTP/1.0\r\n".toList =
        some ⟨"HTTP/1.0 404 Not Found\r\nContent-Type: text/html\r\nContent-Length: 46\r\n\r\n<html><body><h1>404 Not Found</h1></body></htm".toList,
          [Event.stat "missing.html".toList]⟩ ∧
      handle_request demo_env "GET /subdir/ HTTP/1.0\r\n".toList =
        some ⟨"HTTP/1.0 403 Forbidden\r\nContent-Type: text/html\r\nContent-Length: 51\r\n\r\n<html><body><h1>403 Forbidden</h1></body></html>".toList
                ++ [NUL, 'X', 'X'],
          [Event.stat "subdir/".toList]⟩ ∧
      handle_request demo_env "HEAD /secret.txt HTTP/1.0\r\n".toList =
        some ⟨"HTTP/1.0 500 Internal Error\r\nContent-Type: text/html\r\nContent-Length: 49\r\n\r\n<html><body><h1>500 Internal Error</h1></body></h".toList,
          [Event.stat "secret.txt".toList, Event.fopen "secret.txt".toList]⟩ :=
  ⟨(static_file_errors demo_env "GET /missing.html HTTP/1.0\r\n".toList
      "GET /missing.html HTTP/1.0\r\n".toList "GET".toList "/missing.html".toList
      "HTTP/1.0".toList [] (by decide) (by decide) (by decide) (by decide)
      (Or.inl rfl) (by decide)).1 (by decide),
    (static_file_errors demo_env "GET /subdir/ HTTP/1.0\r\n".toList
      "GET /subdir/ HTTP/1.0\r\n".toList "GET".toList "/subdir/".toList
      "HTTP/1.0".toList [] (by decide) (by decide) (by decide) (by decide)
      (Or.inl rfl) (by decide)).2.1 (by decide),
    (static_file_errors demo_env "HEAD /secret.txt HTTP/1.0\r\n".toList
      "HEAD /secret.txt HTTP/1.0\r\n".toList "HEAD".toList "/secret.txt".toList
      "HTTP/1.0".toList [] (by decide) (by decide) (by decide) (by decide)
      (Or.inr rfl) (by decide)).2.2 "s3cret".toList (by decide)⟩

/-- C8: for every status code, status message, content type, body and
body_size, `send_request` appends to the connection exactly the status line
`HTTP/1.0 <code> <message>`, the `Content-Type` header, the `Content-Length`
header with body_size in decimal, an empty line, and then the body_size bytes
found at `body` when `body` is not NULL and body_size is positive, and nothing
otherwise; the bytes are the first body_size bytes of the object behind `body`
whenever that object is at least body_size long. -/
theorem send_request_wire_format (nfd : List Char) (status_code : Int)
    (status_message content_type : List Char) (body : Option Buf) (body_size : Nat) :
    send_request nfd status_code status_message content_type body body_size =
        nfd ++ "HTTP/1.0 ".toList ++ (Int.repr status_code).toList ++ " ".toList
          ++ status_message ++ "\r\n".toList
          ++ "Content-Type: ".toList ++ content_type ++ "\r\n".toList
          ++ "Content-Length: ".toList ++ (Nat.repr body_size).toList ++ "\r\n".toList
          ++ "\r\n".toList
          ++ (match body with
              | some b => if 0 < body_size then b.read body_size else []
              | none => [])
      ∧ ∀ b : Buf, body_size ≤ b.obj.length → b.read body_size = b.obj.take body_size := by
  refine ⟨send_request_eq nfd status_code status_message content_type body body_size, ?_⟩
  intro b hb
  simp [Buf.read, Nat.sub_eq_zero_of_le hb]

/-- C9: when the line has three tokens (or more), the path is free of `..` and
the method token is neither `GET` nor `HEAD`, the handler answers
501 Not Implemented, whatever the path and the file system. -/
theorem other_method_not_implemented (env : Env) (input line method path version : List Char)
    (more : List (List Char)) (hline : getline input = some line)
    (htok : tokens (cstr line) = method :: path :: version :: more)
    (hm : method.length < MAX_LINE) (hp : path.length < MAX_LINE)
    (hv : version.length < MAX_LINE)
    (hdots : ¬ "..".toList <:+: strip_slash path)
    (hget : method ≠ "GET".toList) (hhead : method ≠ "HEAD".toList) :
    handle_request env input =
      some ⟨"HTTP/1.0 501 Not Implemented\r\nContent-Type: text/html\r\nContent-Length: 47\r\n\r\n<html><body><h1>501 Not Implemented</h1></body>".toList, []⟩ := by
  have h1 : strcmp_eq method "GET".toList = false := by simpa [strcmp_eq] using hget
  have h2 : strcmp_eq method "HEAD".toList = false := by simpa [strcmp_eq] using hhead
  have h12 : ¬ (strcmp_eq method "GET".toList || strcmp_eq method "HEAD".toList) = true := by
    rw [h1, h2]; decide
  rw [handle_request_three env input line method path version more hline htok hm hp hv,
    if_neg (fun h => hdots ((strstr_iff _ _).mp h)), if_neg h12, resp501_eq]

/-- C9 (witness): `PUT /index.html HTTP/1.0` is answered 501 although
`index.html` exists. -/
theorem other_method_not_implemented_witness :
    handle_request demo_env "PUT /index.html HTTP/1.0\r\n".toList =
      some ⟨"HTTP/1.0 501 Not Implemented\r\nContent-Type: text/html\r\nContent-Length: 47\r\n\r\n<html><body><h1>501 Not Implemented</h1></body>".toList, []⟩ :=
  other_method_not_implemented demo_env "PUT /index.html HTTP/1.0\r\n".toList
    "PUT /index.html HTTP/1.0\r\n".toList "PUT".toList "/index.html".toList
    "HTTP/1.0".toList [] (by decide) (by decide) (by decide) (by decide) (by decide)
    (by decide) (by decide) (by decide)

/-- C10: on every request line whose tokens fit their arrays, the method token
that `sscanf` stores has no white space, so the test for the `GET /cgi-like`
beginning fails; the handler answers through the 400, the 403, the static-file
(200, 404, 403 or 500) or the 501 path, and never forks. -/
theorem cgi_branch_unreachable (env : Env) (input line : List Char) (sc : Scan)
    (hline : getline input = some line) (hscan : sscanf3 (cstr line) = some sc) :
    strncmp_eq sc.method "GET /cgi-like".toList 13 = false ∧
      ∃ r, handle_request env input = some r ∧
        (∀ command, Event.fork command ∉ r.trace) ∧
        (r = ⟨"HTTP/1.0 400 Bad Request\r\nContent-Type: text/html\r\nContent-Length: 50\r\n\r\n<html><body><h1>400 Bad Request</h1></body></html>".toList, []⟩ ∨
          r = ⟨"HTTP/1.0 403 Forbidden\r\nContent-Type: text/html\r\nContent-Length: 51\r\n\r\n<html><body><h1>403 Forbidden</h1></body></html>".toList
                ++ [NUL, env.rodata html403.toList 0, env.rodata html403.toList 1], []⟩ ∨
          (r = serve_file env sc.method (strip_slash sc.filename) ∧
            ("HTTP/1.0 200 OK\r\n".toList <+: r.nfd ∨
              "HTTP/1.0 404 Not Found\r\n".toList <+: r.nfd ∨
              "HTTP/1.0 403 Forbidden\r\n".toList <+: r.nfd ∨
              "HTTP/1.0 500 Internal Error\r\n".toList <+: r.nfd)) ∨
          r = ⟨"HTTP/1.0 501 Not Implemented\r\nContent-Type: text/html\r\nContent-Length: 47\r\n\r\n<html><body><h1>501 Not Implemented</h1></body>".toList, []⟩) := by
  have h400 : handle_request env input =
      some ⟨send_request [] 400 "Bad Request".toList "text/html".toList (literal env html400) 50, []⟩ →
      ∃ r, handle_request env input = some r ∧
        (∀ command, Event.fork command ∉ r.trace) ∧
        (r = ⟨"HTTP/1.0 400 Bad Request\r\nContent-Type: text/html\r\nContent-Length: 50\r\n\r\n<html><body><h1>400 Bad Request</h1></body></html>".toList, []⟩ ∨
          r = ⟨"HTTP/1.0 403 Forbidden\r\nContent-Type: text/html\r\nContent-Length: 51\r\n\r\n<html><body><h1>403 Forbidden</h1></body></html>".toList
                ++ [NUL, env.rodata html403.toList 0, env.rodata html403.toList 1], []⟩ ∨
          (r = serve_file env sc.method (strip_slash sc.filename) ∧
            ("HTTP/1.0 200 OK\r\n".toList <+: r.nfd ∨
              "HTTP/1.0 404 Not Found\r\n".toList <+: r.nfd ∨
              "HTTP/1.0 403 Forbidden\r\n".toList <+: r.nfd ∨
              "HTTP/1.0 500 Internal Error\r\n".toList <+: r.nfd)) ∨
          r = ⟨"HTTP/1.0 501 Not Implemented\r\nContent-Type: text/html\r\nContent-Length: 47\r\n\r\n<html><body><h1>501 Not Implemented</h1></body>".toList, []⟩) := by
    intro h
    exact ⟨_, h, by simp, Or.inl (by rw [resp400_eq])⟩
  have hbad : ∀ sc' : Scan, sscanf3 (cstr line) = some sc' → sc'.ret ≠ 3 →
      handle_request env input =
        some ⟨send_request [] 400 "Bad Request".toList "text/html".toList (literal env html400) 50, []⟩ := by
    intro sc' h1 h2
    unfold handle_request
    simp only [hline, h1]
    rw [if_pos h2]
  have hs := sscanf3_tokens (cstr line)
  rw [hscan] at hs
  cases htok : tokens (cstr line) with
  | nil =>
    rw [htok] at hs
    simp only [Option.some.injEq] at hs
    subst hs
    exact ⟨by decide, h400 (hbad _ hscan (by decide))⟩
  | cons m l1 =>
    have hmns := tokens_head _ m _ htok
    cases l1 with
    | nil =>
      rw [htok] at hs
      simp only at hs
      split at hs
      · cases hs
      · simp only [Option.some.injEq] at hs
        subst hs
        exact ⟨no_cgi m hmns, h400 (hbad _ hscan (by simp))⟩
    | cons f l2 =>
      cases l2 with
      | nil =>
        rw [htok] at hs
        simp only at hs
        split at hs
        · cases hs
        · split at hs
          · cases hs
          · simp only [Option.some.injEq] at hs
            subst hs
            exact ⟨no_cgi m hmns, h400 (hbad _ hscan (by simp))⟩
      | cons v more =>
        rw [htok] at hs
        simp only at hs
        split at hs
        · cases hs
        · rename_i hm
          split at hs
          · cases hs
          · rename_i hf
            split at hs
            · cases hs
            · rename_i hv
              simp only [Option.some.injEq] at hs
              subst hs
              refine ⟨no_cgi m hmns, ?_⟩
              have key := handle_request_three env input line m f v more hline htok
                (not_le.mp hm) (not_le.mp hf) (not_le.mp hv)
              by_cases hd : strstr (strip_slash f) "..".toList = true
              · rw [if_pos hd] at key
                exact ⟨_, key, by simp, Or.inr (Or.inl (by rw [resp403_eq]))⟩
              · rw [if_neg hd] at key
                by_cases hg : (strcmp_eq m "GET".toList || strcmp_eq m "HEAD".toList) = true
                · rw [if_pos hg] at key
                  exact ⟨_, key, fun c => serve_file_no_fork env m _ c,
                    Or.inr (Or.inr (Or.inl ⟨rfl, serve_file_status env m _⟩))⟩
                · rw [if_neg hg] at key
                  exact ⟨_, key, by simp, Or.inr (Or.inr (Or.inr (by rw [resp501_eq])))⟩

/-- C10 (witness): `GET /cgi-like/hello HTTP/1.0` is scanned into the method
`GET`; it is answered by a run that forks nothing. -/
theorem cgi_branch_unreachable_witness :
    sscanf3 (cstr "GET /cgi-like/hello HTTP/1.0\r\n".toList) =
        some ⟨3, "GET".toList, "/cgi-like/hello".toList, "HTTP/1.0".toList⟩ ∧
      ∃ r, handle_request demo_env "GET /cgi-like/hello HTTP/1.0\r\n".toList = some r ∧
        ∀ command, Event.fork command ∉ r.trace :=
  ⟨by decide,
    (cgi_branch_unreachable demo_env "GET /cgi-like/hello HTTP/1.0\r\n".toList
      "GET /cgi-like/hello HTTP/1.0\r\n".toList
      ⟨3, "GET".toList, "/cgi-like/hello".toList, "HTTP/1.0".toList⟩
      (by decide) (by decide)).2.imp (fun _ h => ⟨h.1, h.2.1⟩)⟩

end Httpd
